import Mathlib

/-!
Verification of the Strava agent activity-metrics comparator.

This file gives a shallow embedding of the pure computation performed by
`CompareRunningSessionsTool._run`, `CompareSpecificRunsTool._run`,
`RecommendTrainingTool._run` (src/src/beeai_agents/strava_custom_tools.py)
and `StravaVisualFormatter.format_activity_with_map` /
`_generate_map_url` (src/src/beeai_agents/visual_formatter.py),
and proves or refutes the specified properties about them.

Modelling conventions:
- Python float arithmetic is modelled over `ℚ` (exact rationals).  Every
  comparison and threshold of the source is a plain order comparison, so the
  decision structure is preserved exactly; the counterexamples below only use
  values whose float evaluation agrees with the rational one.
- A JSON record field read with `run.get(field, 0)` is modelled as a total
  field whose value is `0` when the field is absent, which is exactly what the
  Python code computes with.
- Text output is modelled as the list of produced lines (the Python code
  builds one string joined by newline characters); numeric rendering
  (`"%.2f"` style) is modelled by an explicit decimal formatter.  None of the
  proved properties depends on the rendered digits.
-/

set_option autoImplicit false

namespace StravaAgent

/-- Fields of a Strava activity record consumed by the tools under
verification.  Absent optional JSON fields are modelled as `0` (numeric) or
empty-string (string), matching the `run.get(field, default)`
accesses of the source. -/
structure ActivityRecord where
  type : String
  distance : ℚ
  moving_time : ℚ
  average_heartrate : ℚ
  average_speed : ℚ
  start_date_local : String
  name : String
  map_polyline : String
  total_elevation_gain : ℚ
  max_heartrate : ℚ
  average_watts : ℚ
  weighted_average_watts : ℚ
  average_cadence : ℚ
  calories : ℚ
deriving DecidableEq

/-- distance_km = distance / 1000 (with distance read via get, default 0). -/
def distance_km (r : ActivityRecord) : ℚ := r.distance / 1000

/-- time_min = moving_time / 60 (with moving_time read via get, default 0). -/
def time_min (r : ActivityRecord) : ℚ := r.moving_time / 60

/-- pace_min_km = (time_min / distance_km) if distance_km > 0 else 0 -/
def pace_min_km (r : ActivityRecord) : ℚ :=
  if distance_km r > 0 then time_min r / distance_km r else 0

/-- speed_kmh = average_speed * 3.6 (with average_speed read via get, default 0). -/
def speed_kmh (r : ActivityRecord) : ℚ := r.average_speed * (36 / 10)

/-- Paces collected for analysis: the loop appends `pace_min_km` for each run
with `pace_min_km > 0`, in list order. -/
def collectPaces (runs : List ActivityRecord) : List ℚ :=
  (runs.map pace_min_km).filter (fun p => p > 0)

/-- Distances collected for analysis (only values with `distance_km > 0`). -/
def collectDistances (runs : List ActivityRecord) : List ℚ :=
  (runs.map distance_km).filter (fun d => d > 0)

/-- Heart rates collected for analysis (only values with `avg_hr > 0`). -/
def collectHeartRates (runs : List ActivityRecord) : List ℚ :=
  (runs.map (fun r => r.average_heartrate)).filter (fun h => h > 0)

/-- Speeds collected by the loop (only values with `speed_kmh > 0`).  The
source collects this list but never uses it in any aggregate. -/
def collectSpeeds (runs : List ActivityRecord) : List ℚ :=
  (runs.map speed_kmh).filter (fun s => s > 0)

/-- Python slice `l[-n:]`: the last `min n (length l)` elements. -/
def takeLast (n : Nat) (l : List ℚ) : List ℚ := l.drop (l.length - n)

/-- recent average: `sum(xs[:3]) / min(3, len(xs))`. -/
def recentAvg (l : List ℚ) : ℚ :=
  (l.take 3).sum / ((min 3 l.length : Nat) : ℚ)

/-- older average: `sum(xs[-3:]) / min(3, len(xs[-3:]))`. -/
def olderAvg (l : List ℚ) : ℚ :=
  (takeLast 3 l).sum / ((min 3 (takeLast 3 l).length : Nat) : ℚ)

/-- pace_improvement = ((older_pace_avg - recent_pace_avg) / older_pace_avg) * 100;
positive when the recent pace is lower (faster). -/
def paceImprovement (paces : List ℚ) : ℚ :=
  ((olderAvg paces - recentAvg paces) / olderAvg paces) * 100

/-- dist_change = ((recent_dist_avg - older_dist_avg) / older_dist_avg) * 100 -/
def distChange (dists : List ℚ) : ℚ :=
  ((recentAvg dists - olderAvg dists) / olderAvg dists) * 100

/-- hr_change = ((recent_hr_avg - older_hr_avg) / older_hr_avg) * 100 -/
def hrChange (hrs : List ℚ) : ℚ :=
  ((recentAvg hrs - olderAvg hrs) / olderAvg hrs) * 100

/-- Qualitative label attached to a metric change by the analysis sections. -/
inductive Classification where
  | improvement
  | decline
  | stable
deriving DecidableEq

/-- Pace branch: IMPROVEMENT if pace_improvement > 2, DECLINE if < -2,
otherwise STABLE.  The argument is the pace_improvement value (positive when
the pace got faster). -/
def classifyPace (c : ℚ) : Classification :=
  if c > 2 then .improvement else if c < -2 then .decline else .stable

/-- Distance branch: INCREASE if dist_change > 5, REDUCTION if < -5,
otherwise STABLE. -/
def classifyDist (c : ℚ) : Classification :=
  if c > 5 then .improvement else if c < -5 then .decline else .stable

/-- Heart-rate branch: IMPROVEMENT if hr_change < -2, INCREASE if > 2,
otherwise STABLE. -/
def classifyHeartRate (c : ℚ) : Classification :=
  if c < -2 then .improvement else if c > 2 then .decline else .stable

/-- Overall verdict tiers printed by the Overall Assessment sections. -/
inductive Verdict where
  | excellent
  | good
  | stayConsistent
deriving DecidableEq

/-- Verdict mapping: improvements >= 2 -> EXCELLENT, == 1 -> GOOD,
else STAY CONSISTENT. -/
def overallVerdict (improvements : Nat) : Verdict :=
  if improvements ≥ 2 then .excellent
  else if improvements = 1 then .good
  else .stayConsistent

/-- Improvement counter of `CompareRunningSessionsTool._run` (lines
1413-1419): pace counts when `len(paces) >= 2 and pace_improvement > 2`,
distance when `len(distances) >= 2 and dist_change > 5`, heart rate when
`len(heart_rates) >= 2 and hr_change < -2`.  The collected speeds list is
never consulted. -/
def improvementsCount (paces distances heartRates : List ℚ) : Nat :=
  (if 2 ≤ paces.length ∧ 2 < paceImprovement paces then 1 else 0) +
  (if 2 ≤ distances.length ∧ 5 < distChange distances then 1 else 0) +
  (if 2 ≤ heartRates.length ∧ hrChange heartRates < -2 then 1 else 0)

/-- Result of the performance-analysis part of
`CompareRunningSessionsTool._run`: each metric comparison is present exactly
when at least two defined values were collected for it, and carries the
percent change together with its classification. -/
structure RunAnalysis where
  paceCmp : Option (ℚ × Classification)
  distCmp : Option (ℚ × Classification)
  hrCmp : Option (ℚ × Classification)
  verdict : Verdict
deriving DecidableEq

/-- Analysis pipeline of `CompareRunningSessionsTool._run` (lines 1319-1426)
on the filtered run list. -/
def analyzeRuns (runs : List ActivityRecord) : RunAnalysis :=
  let paces := collectPaces runs
  let distances := collectDistances runs
  let heartRates := collectHeartRates runs
  { paceCmp :=
      if 2 ≤ paces.length then
        some (paceImprovement paces, classifyPace (paceImprovement paces))
      else none
    distCmp :=
      if 2 ≤ distances.length then
        some (distChange distances, classifyDist (distChange distances))
      else none
    hrCmp :=
      if 2 ≤ heartRates.length then
        some (hrChange heartRates, classifyHeartRate (hrChange heartRates))
      else none
    verdict := overallVerdict (improvementsCount paces distances heartRates) }

/-- Outcome of a tool run: either the insufficient-data text message the tool
returns as its normal output, or the computed analysis. -/
inductive ToolResult (α : Type) where
  | insufficientData (msg : String)
  | ok (value : α)
deriving DecidableEq

/-- Sublist of activities whose type field equals Run, truncated to the
first num_sessions entries, preserving order. -/
def filterRuns (activities : List ActivityRecord) (num_sessions : Nat) :
    List ActivityRecord :=
  (activities.filter (fun a => a.type == "Run")).take num_sessions

/-- `CompareRunningSessionsTool._run` after the activities have been fetched:
filter to runs, and either return the insufficient-data message (fewer than 2
runs) or the analysis. -/
def compareRunningSessions (activities : List ActivityRecord)
    (num_sessions : Nat) : ToolResult RunAnalysis :=
  let runs := filterRuns activities num_sessions
  if runs.length < 2 then
    .insufficientData
      ("At least 2 running sessions are needed for comparison. Only " ++
        toString runs.length ++ " sessions found.")
  else
    .ok (analyzeRuns runs)

/-- Distance percent change of `CompareSpecificRunsTool._run` (line 1536):
`((d2 - d1) / d1 * 100) if d1 > 0 else 0`.  Note the zero-reference case
falls back to the numeric value `0`, and the comparison row is still
emitted. -/
def specificDistChange (d1 d2 : ℚ) : ℚ :=
  if d1 > 0 then (d2 - d1) / d1 * 100 else 0

/-- Time percent change of `CompareSpecificRunsTool._run` (line 1541):
`((t2 - t1) / t1 * 100) if t1 > 0 else 0`. -/
def specificTimeChange (t1 t2 : ℚ) : ℚ :=
  if t1 > 0 then (t2 - t1) / t1 * 100 else 0

/-- Speed percent change of `CompareSpecificRunsTool._run` (line 1555):
`((s2 - s1) / s1 * 100) if s1 > 0 else 0`. -/
def specificSpeedChange (s1 s2 : ℚ) : ℚ :=
  if s1 > 0 then (s2 - s1) / s1 * 100 else 0

/-- Distance analysis of `CompareSpecificRunsTool._run` (lines 1596-1605):
unconditional, classifies `specificDistChange` against the 5 percent band. -/
def specificDistAnalysis (d1 d2 : ℚ) : ℚ × Classification :=
  (specificDistChange d1 d2, classifyDist (specificDistChange d1 d2))

/-- Pace analysis of `CompareSpecificRunsTool._run` (lines 1544-1552 and
1584-1594): performed only when both paces are positive; the change
`(p1 - p2) / p1 * 100` is positive when session 2 is faster. -/
def specificPaceAnalysis (p1 p2 : ℚ) : Option (ℚ × Classification) :=
  if p1 > 0 ∧ p2 > 0 then
    some ((p1 - p2) / p1 * 100, classifyPace ((p1 - p2) / p1 * 100))
  else none

/-- Heart-rate analysis of `CompareSpecificRunsTool._run` (lines 1559-1563
and 1607-1617): performed only when both averages are positive. -/
def specificHrAnalysis (h1 h2 : ℚ) : Option (ℚ × Classification) :=
  if h1 > 0 ∧ h2 > 0 then
    some ((h2 - h1) / h1 * 100, classifyHeartRate ((h2 - h1) / h1 * 100))
  else none

/-- Improvement counter of `CompareSpecificRunsTool._run` (lines 1582-1617):
pace and heart rate count only when both values are positive, distance is
counted unconditionally; the speed row never increments the counter. -/
def specificImprovements (r1 r2 : ActivityRecord) : Nat :=
  (if pace_min_km r1 > 0 ∧ pace_min_km r2 > 0 ∧
      2 < (pace_min_km r1 - pace_min_km r2) / pace_min_km r1 * 100
   then 1 else 0) +
  (if 5 < specificDistChange (distance_km r1) (distance_km r2) then 1 else 0) +
  (if r1.average_heartrate > 0 ∧ r2.average_heartrate > 0 ∧
      (r2.average_heartrate - r1.average_heartrate) / r1.average_heartrate *
        100 < -2
   then 1 else 0)

/-- Python slice `s[:n]` on a string, modelled character-wise. -/
def strTake (n : Nat) (s : String) : String := ⟨s.data.take n⟩

/-- Month key of a run: `date = start_date_local[:10]` then
`week = date[:7]`, i.e. the YYYY-MM prefix of the local start date. -/
def monthKey (r : ActivityRecord) : String :=
  strTake 7 (strTake 10 r.start_date_local)

/-- Increment the count stored under key `k` in an association list,
appending a fresh entry with count 1 when the key is absent.  This models
`weekly_frequency[week] = weekly_frequency.get(week, 0) + 1` on a Python
dict. -/
def bump (acc : List (String × Nat)) (k : String) : List (String × Nat) :=
  match acc with
  | [] => [(k, 1)]
  | (q, n) :: rest => if q = k then (q, n + 1) :: rest else (q, n) :: bump rest k

/-- The `weekly_frequency` dict built by `RecommendTrainingTool._run`
(lines 1703-1723): per-month-key counts of the analyzed runs. -/
def weeklyFrequency (runs : List ActivityRecord) : List (String × Nat) :=
  runs.foldl (fun acc r => bump acc (monthKey r)) []

/-- avg_weekly_runs = sum(weekly_frequency.values()) / len(weekly_frequency)
if weekly_frequency else 0 (line 1729). -/
def avgWeeklyRuns (runs : List ActivityRecord) : ℚ :=
  let wf := weeklyFrequency runs
  if wf.isEmpty then 0
  else ((wf.map Prod.snd).sum : ℚ) / (wf.length : ℚ)

/-- Level bucket of `RecommendTrainingTool._run` (lines 1753-1758):
below 2 -> beginner, below 4 -> intermediate, otherwise advanced. -/
def trainingLevel (avg_weekly_runs : ℚ) : String :=
  if avg_weekly_runs < 2 then "beginner"
  else if avg_weekly_runs < 4 then "intermediate"
  else "advanced"

/-- Tiers of the canned weekly-plan templates. -/
inductive Tier where
  | beginner
  | intermediate
  | advanced
deriving DecidableEq

/-- Branch structure shared by the `_recommend_*` template helpers (lines
1810-1835 and later): `if level == "beginner": ... elif level ==
"intermediate": ... else: # advanced`. -/
def templateTier (level : String) : Tier :=
  if level = "beginner" then .beginner
  else if level = "intermediate" then .intermediate
  else .advanced

/-- Aggregates computed by `RecommendTrainingTool._run` (lines 1697-1760)
over the filtered run list. -/
structure TrainingAnalysis where
  avg_distance : ℚ
  avg_pace : ℚ
  avg_hr : ℚ
  avg_weekly_runs : ℚ
  max_distance : ℚ
  level : String
deriving DecidableEq

/-- Aggregation pipeline of `RecommendTrainingTool._run`: total distance and
time run over all analyzed runs, averages of the positively-valued pace and
heart-rate lists, the month-keyed frequency average, and the level bucket
derived from it. -/
def trainingAnalysis (runs : List ActivityRecord) : TrainingAnalysis :=
  let paces := collectPaces runs
  let distances := collectDistances runs
  let heartRates := collectHeartRates runs
  let awr := avgWeeklyRuns runs
  { avg_distance := (runs.map distance_km).sum / (runs.length : ℚ)
    avg_pace := if paces.isEmpty then 0 else paces.sum / (paces.length : ℚ)
    avg_hr :=
      if heartRates.isEmpty then 0
      else heartRates.sum / (heartRates.length : ℚ)
    avg_weekly_runs := awr
    max_distance := distances.foldl max 0
    level := trainingLevel awr }

/-- `RecommendTrainingTool._run` after the activities have been fetched:
filter to runs, and either return the insufficient-data message (fewer than 5
runs) or the aggregates. -/
def recommendTraining (activities : List ActivityRecord)
    (num_sessions : Nat) : ToolResult TrainingAnalysis :=
  let runs := filterRuns activities num_sessions
  if runs.length < 5 then
    .insufficientData
      ("At least 5 running sessions are needed to generate recommendations. Only " ++
        toString runs.length ++ " sessions found.")
  else
    .ok (trainingAnalysis runs)

/-- Left-pad a string with zero characters up to the given length, modelling
Python `"%0Nd"` style padding. -/
def padZeros (len : Nat) (s : String) : String :=
  if s.length < len then ⟨List.replicate (len - s.length) '0'⟩ ++ s else s

/-- Fixed-point decimal rendering of a rational with `prec` fraction digits
(rounding half away from zero for nonnegative values).  This models the
`"%.Nf"` formatting of the source; no verified property depends on the
rendered digits. -/
def fmtFixed (prec : Nat) (q : ℚ) : String :=
  let n : ℤ := (q * (10 : ℚ) ^ prec + 1 / 2).floor
  let sign := if n < 0 then "-" else ""
  let m := n.natAbs
  let base := (10 : Nat) ^ prec
  if prec = 0 then sign ++ toString m
  else sign ++ toString (m / base) ++ "." ++ padZeros prec (toString (m % base))

/-- Render a pace as `m:ss`: `pace_min = int(p)`,
`pace_sec = int((p - pace_min) * 60)`, formatted `"{m}:{s:02d}"`. -/
def paceString (p : ℚ) : String :=
  let m := p.floor.toNat
  let s := ((p - (m : ℚ)) * 60).floor.toNat
  toString m ++ ":" ++ padZeros 2 (toString s)

/-- `StravaVisualFormatter._generate_map_url` (visual_formatter.py lines
173-194): `None` for an empty polyline; a Google static-map URL when the
Google key is configured; otherwise `None` (the Mapbox branch also returns
`None`). -/
def generateMapUrl (googleKey mapboxToken polyline size : String) :
    Option String :=
  if polyline = "" then none
  else if googleKey ≠ "" then
    some ("https://maps.googleapis.com/maps/api/staticmap?size=" ++ size ++
      "&path=enc:" ++ polyline ++ "&key=" ++ googleKey)
  else none

/-- A line is a Markdown image line when it starts with the two characters
of an image tag opener. -/
def isImageLine (l : String) : Bool := decide (l.data.take 2 = ['!', '['])

/-- Conditionally emitted single line: `if cond: response += line`. -/
def optLine (cond : Prop) [Decidable cond] (line : String) : List String :=
  if cond then [line] else []

/-- Speed and pace lines of `format_activity_with_map` (lines 77-88):
emitted only when `average_speed > 0`; the pace line additionally only for
activities of type Run, with the inner `if speed_kmh > 0 else 0` guard of
the source. -/
def speedLines (a : ActivityRecord) : List String :=
  if a.average_speed > 0 then
    ["- **Average Speed:** " ++ fmtFixed 1 (speed_kmh a) ++ " km/h"] ++
      optLine (a.type = "Run")
        ("- **Average Pace:** " ++
          paceString (if speed_kmh a > 0 then 60 / speed_kmh a else 0) ++
          " min/km")
  else []

/-- Metric lines of `StravaVisualFormatter.format_activity_with_map`
(visual_formatter.py lines 65-110): the fixed Main Metrics block followed by
the conditional speed, pace, heart-rate, power, cadence and calories lines.
Python truthiness of a float field is modelled as inequality with 0. -/
def metricLines (a : ActivityRecord) : List String :=
  ["### 📊 Main Metrics",
   "- **Type:** " ++ a.type,
   "- **Distance:** " ++ fmtFixed 2 (distance_km a) ++ " km",
   "- **Time:** " ++ fmtFixed 0 (time_min a) ++ " min (" ++
     fmtFixed 1 (time_min a / 60) ++ " hours)",
   "- **Elevation Gain:** " ++ fmtFixed 0 a.total_elevation_gain ++ " m"] ++
  speedLines a ++
  optLine (a.average_heartrate ≠ 0)
    ("- **Average HR:** " ++ fmtFixed 0 a.average_heartrate ++ " bpm") ++
  optLine (a.max_heartrate ≠ 0)
    ("- **Max HR:** " ++ fmtFixed 0 a.max_heartrate ++ " bpm") ++
  optLine (a.average_watts ≠ 0)
    ("- **Average Power:** " ++ fmtFixed 0 a.average_watts ++ " W") ++
  optLine (a.weighted_average_watts ≠ 0)
    ("- **Normalized Power:** " ++ fmtFixed 0 a.weighted_average_watts ++ " W") ++
  optLine (a.average_cadence ≠ 0)
    ("- **Average Cadence:** " ++ fmtFixed 0 a.average_cadence ++ " rpm") ++
  optLine (a.calories ≠ 0)
    ("- **Calories:** " ++ fmtFixed 0 a.calories ++ " kcal")

/-- Map block of `format_activity_with_map` (lines 56-63): when the polyline
is non-empty and `_generate_map_url` yields a URL, one image line followed by
a blank line; otherwise nothing. -/
def mapLines (a : ActivityRecord) (googleKey mapboxToken : String) :
    List String :=
  if a.map_polyline ≠ "" then
    match generateMapUrl googleKey mapboxToken a.map_polyline "600x400" with
    | some url => ["![Route Map](" ++ url ++ ")", ""]
    | none => []
  else []

/-- `StravaVisualFormatter.format_activity_with_map` as the list of produced
text lines: title, blank line, optional map image block, metric lines.  Field
values are treated as single-line text. -/
def formatActivityWithMap (a : ActivityRecord)
    (googleKey mapboxToken : String) : List String :=
  ["## 🏃 " ++ a.name, ""] ++ mapLines a googleKey mapboxToken ++
    metricLines a

/-- Modelled from the spec: arithmetic mean of a metric list (used to state
the window-aggregate refinement claim against the source windows). -/
def mean (l : List ℚ) : ℚ := l.sum / (l.length : ℚ)

/-- Running activity record with only distance and moving time set, all
optional fields absent. -/
def mkRun (dist mt : ℚ) (date : String) : ActivityRecord :=
  { type := "Run", distance := dist, moving_time := mt,
    average_heartrate := 0, average_speed := 0, start_date_local := date,
    name := "", map_polyline := "", total_elevation_gain := 0,
    max_heartrate := 0, average_watts := 0, weighted_average_watts := 0,
    average_cadence := 0, calories := 0 }

/-- Most recent session of the two-session scenario: 10 km in 50 minutes,
i.e. a 5:00 min/km pace. -/
def sessionA : ActivityRecord := mkRun 10000 3000 "2026-02-01T08:00:00Z"

/-- Older session of the two-session scenario: 10 km in 48 minutes 20
seconds, i.e. a 4:50 min/km pace. -/
def sessionB : ActivityRecord := mkRun 10000 2900 "2026-01-25T08:00:00Z"

/-- Activity record with a non-empty map polyline, for the formatter
witness. -/
def polylineSample : ActivityRecord :=
  { mkRun 0 0 "2026-01-01" with map_polyline := "abc" }

/-! ## Helper lemmas -/

theorem classifyPace_eq_improvement (c : ℚ) :
    classifyPace c = Classification.improvement ↔ 2 < c := by
  unfold classifyPace
  split_ifs with h1 h2 <;> simp [h1]

theorem classifyDist_eq_improvement (c : ℚ) :
    classifyDist c = Classification.improvement ↔ 5 < c := by
  unfold classifyDist
  split_ifs with h1 h2 <;> simp [h1]

theorem classifyHeartRate_eq_improvement (c : ℚ) :
    classifyHeartRate c = Classification.improvement ↔ c < -2 := by
  unfold classifyHeartRate
  split_ifs with h1 h2 <;> simp [h1]

/-! ## C3: symmetric strict classification thresholds -/

/-- C3: classification is symmetric around the stable band with strict
comparisons.  A pace or heart-rate change of magnitude exactly 2 is stable
and a magnitude strictly above 2 is improvement or decline per the sign
convention of the metric (the pace argument is `pace_improvement`, positive
when the pace got faster/lower; heart rate improves when the change is
negative); for distance the band boundary is 5. -/
theorem classification_thresholds :
    (classifyPace 2 = Classification.stable ∧
     classifyPace (-2) = Classification.stable ∧
     classifyHeartRate 2 = Classification.stable ∧
     classifyHeartRate (-2) = Classification.stable ∧
     classifyDist 5 = Classification.stable ∧
     classifyDist (-5) = Classification.stable) ∧
    (∀ c : ℚ, 2 < c → classifyPace c = Classification.improvement) ∧
    (∀ c : ℚ, c < -2 → classifyPace c = Classification.decline) ∧
    (∀ c : ℚ, c < -2 → classifyHeartRate c = Classification.improvement) ∧
    (∀ c : ℚ, 2 < c → classifyHeartRate c = Classification.decline) ∧
    (∀ c : ℚ, 5 < c → classifyDist c = Classification.improvement) ∧
    (∀ c : ℚ, c < -5 → classifyDist c = Classification.decline) := by
  refine ⟨by norm_num [classifyPace, classifyHeartRate, classifyDist],
    ?_, ?_, ?_, ?_, ?_, ?_⟩ <;> intro c h
  · rw [classifyPace, if_pos h]
  · rw [classifyPace, if_neg (by linarith), if_pos h]
  · rw [classifyHeartRate, if_pos h]
  · rw [classifyHeartRate, if_neg (by linarith), if_pos h]
  · rw [classifyDist, if_pos h]
  · rw [classifyDist, if_neg (by linarith), if_pos h]

/-- Witness for `classification_thresholds` at concrete changes just beyond
the band. -/
theorem classification_thresholds_witness :
    classifyPace (201 / 100) = Classification.improvement ∧
    classifyHeartRate (-201 / 100) = Classification.improvement :=
  ⟨classification_thresholds.2.1 (201 / 100) (by norm_num),
   classification_thresholds.2.2.2.1 (-201 / 100) (by norm_num)⟩

/-! ## C7: training level buckets -/

/-- C7: the training level bucket is a function of the average weekly
frequency alone: below 2 is beginner, from 2 below 4 is intermediate, 4 and
above is advanced; 3.5 resolves to intermediate and selects the
intermediate-tier template branch. -/
theorem training_level_buckets :
    (∀ f : ℚ, f < 2 → trainingLevel f = "beginner") ∧
    (∀ f : ℚ, 2 ≤ f → f < 4 → trainingLevel f = "intermediate") ∧
    (∀ f : ℚ, 4 ≤ f → trainingLevel f = "advanced") ∧
    trainingLevel (7 / 2) = "intermediate" ∧
    templateTier (trainingLevel (7 / 2)) = Tier.intermediate ∧
    (∀ runs : List ActivityRecord,
      (trainingAnalysis runs).level = trainingLevel (avgWeeklyRuns runs)) := by
  refine ⟨?_, ?_, ?_, by norm_num [trainingLevel], ?_, fun runs => rfl⟩
  · intro f h; rw [trainingLevel, if_pos h]
  · intro f h1 h2
    rw [trainingLevel, if_neg (by linarith), if_pos h2]
  · intro f h
    rw [trainingLevel, if_neg (by linarith), if_neg (by linarith)]
  · have h1 : trainingLevel (7 / 2) = "intermediate" := by
      norm_num [trainingLevel]
    rw [h1, templateTier, if_neg (by decide), if_pos rfl]

/-- Witness for `training_level_buckets` at frequency 3.5. -/
theorem training_level_buckets_witness :
    trainingLevel (7 / 2) = "intermediate" :=
  training_level_buckets.2.1 (7 / 2) (by norm_num) (by norm_num)

/-! ## C8: insufficient-data guards -/

/-- C8: with fewer than 2 filtered runs the session comparator returns the
insufficient-data text message, and with fewer than 5 the training
recommender does; conversely an analysis value is only produced at or above
the threshold, so no windowed average or percent-change division is reached
below it. -/
theorem insufficient_data_guards :
    (∀ (acts : List ActivityRecord) (n : Nat),
      (filterRuns acts n).length < 2 →
      compareRunningSessions acts n =
        ToolResult.insufficientData
          ("At least 2 running sessions are needed for comparison. Only " ++
            toString (filterRuns acts n).length ++ " sessions found.")) ∧
    (∀ (acts : List ActivityRecord) (n : Nat),
      (filterRuns acts n).length < 5 →
      recommendTraining acts n =
        ToolResult.insufficientData
          ("At least 5 running sessions are needed to generate recommendations. Only " ++
            toString (filterRuns acts n).length ++ " sessions found.")) ∧
    (∀ (acts : List ActivityRecord) (n : Nat) (r : RunAnalysis),
      compareRunningSessions acts n = ToolResult.ok r →
      2 ≤ (filterRuns acts n).length) ∧
    (∀ (acts : List ActivityRecord) (n : Nat) (t : TrainingAnalysis),
      recommendTraining acts n = ToolResult.ok t →
      5 ≤ (filterRuns acts n).length) := by
  refine ⟨?_, ?_, ?_, ?_⟩
  · intro acts n h
    simp only [compareRunningSessions, if_pos h]
  · intro acts n h
    simp only [recommendTraining, if_pos h]
  · intro acts n r h
    by_cases hlt : (filterRuns acts n).length < 2
    · simp only [compareRunningSessions, if_pos hlt] at h
      cases h
    · omega
  · intro acts n t h
    by_cases hlt : (filterRuns acts n).length < 5
    · simp only [recommendTraining, if_pos hlt] at h
      cases h
    · omega

/-- Witness for `insufficient_data_guards`: both tools return the
insufficient-data message on an empty activity list. -/
theorem insufficient_data_guards_witness :
    compareRunningSessions [] 10 =
      ToolResult.insufficientData
        ("At least 2 running sessions are needed for comparison. Only " ++
          toString (filterRuns [] 10).length ++ " sessions found.") ∧
    recommendTraining [] 10 =
      ToolResult.insufficientData
        ("At least 5 running sessions are needed to generate recommendations. Only " ++
          toString (filterRuns [] 10).length ++ " sessions found.") :=
  ⟨insufficient_data_guards.1 [] 10 (by decide),
   insufficient_data_guards.2.1 [] 10 (by decide)⟩

/-! ## Speed-independence helper lemmas (the collected speeds list feeds no
aggregate): rewriting every average_speed field leaves the analysis pipelines
unchanged. -/

theorem collectPaces_map_speed (runs : List ActivityRecord) (v : ℚ) :
    collectPaces (runs.map fun a => { a with average_speed := v }) =
      collectPaces runs := by
  simp only [collectPaces, List.map_map]
  rfl

theorem collectDistances_map_speed (runs : List ActivityRecord) (v : ℚ) :
    collectDistances (runs.map fun a => { a with average_speed := v }) =
      collectDistances runs := by
  simp only [collectDistances, List.map_map]
  rfl

theorem collectHeartRates_map_speed (runs : List ActivityRecord) (v : ℚ) :
    collectHeartRates (runs.map fun a => { a with average_speed := v }) =
      collectHeartRates runs := by
  simp only [collectHeartRates, List.map_map]
  rfl

theorem analyzeRuns_map_speed (runs : List ActivityRecord) (v : ℚ) :
    analyzeRuns (runs.map fun a => { a with average_speed := v }) =
      analyzeRuns runs := by
  simp only [analyzeRuns, collectPaces_map_speed, collectDistances_map_speed,
    collectHeartRates_map_speed]

theorem weeklyFrequency_map_speed (runs : List ActivityRecord) (v : ℚ) :
    weeklyFrequency (runs.map fun a => { a with average_speed := v }) =
      weeklyFrequency runs := by
  simp only [weeklyFrequency, List.foldl_map]
  rfl

theorem trainingAnalysis_map_speed (runs : List ActivityRecord) (v : ℚ) :
    trainingAnalysis (runs.map fun a => { a with average_speed := v }) =
      trainingAnalysis runs := by
  simp only [trainingAnalysis, collectPaces_map_speed,
    collectDistances_map_speed, collectHeartRates_map_speed, avgWeeklyRuns,
    weeklyFrequency_map_speed, List.map_map, List.length_map]
  rfl

/-! ## C5: verdict counts improvements among pace, distance, heart rate -/

theorem specificPace_improvement_iff (p1 p2 : ℚ) :
    (specificPaceAnalysis p1 p2).map Prod.snd =
        some Classification.improvement ↔
      p1 > 0 ∧ p2 > 0 ∧ 2 < (p1 - p2) / p1 * 100 := by
  rw [specificPaceAnalysis]
  split_ifs with h
  · simp [classifyPace_eq_improvement, h.1, h.2]
  · constructor
    · intro hx
      simp at hx
    · rintro ⟨a, b, -⟩
      exact absurd ⟨a, b⟩ h

theorem specificHr_improvement_iff (h1 h2 : ℚ) :
    (specificHrAnalysis h1 h2).map Prod.snd =
        some Classification.improvement ↔
      h1 > 0 ∧ h2 > 0 ∧ (h2 - h1) / h1 * 100 < -2 := by
  rw [specificHrAnalysis]
  split_ifs with h
  · simp [classifyHeartRate_eq_improvement, h.1, h.2]
  · constructor
    · intro hx
      simp at hx
    · rintro ⟨a, b, -⟩
      exact absurd ⟨a, b⟩ h

theorem specificDist_improvement_iff (d1 d2 : ℚ) :
    (specificDistAnalysis d1 d2).2 = Classification.improvement ↔
      5 < specificDistChange d1 d2 := by
  rw [specificDistAnalysis]
  exact classifyDist_eq_improvement _

/-- C5: the improvement counter counts exactly the metrics classified
improvement among pace, distance and heart rate (each subject to its
two-defined-values guard); in the specific-runs comparator the counter
likewise counts exactly the improvement labels of the pace, distance and
heart-rate analyses; neither counter reads the speed values (rewriting every
speed field leaves them unchanged); and the count maps to the verdict as at
least 2 to excellent, exactly 1 to good, 0 to stay consistent. -/
theorem verdict_counts_improvements :
    (∀ paces distances heartRates : List ℚ,
      improvementsCount paces distances heartRates =
        (if 2 ≤ paces.length ∧
            classifyPace (paceImprovement paces) = Classification.improvement
         then 1 else 0) +
        (if 2 ≤ distances.length ∧
            classifyDist (distChange distances) = Classification.improvement
         then 1 else 0) +
        (if 2 ≤ heartRates.length ∧
            classifyHeartRate (hrChange heartRates) =
              Classification.improvement
         then 1 else 0)) ∧
    (∀ runs : List ActivityRecord,
      (analyzeRuns runs).verdict =
        overallVerdict (improvementsCount (collectPaces runs)
          (collectDistances runs) (collectHeartRates runs))) ∧
    (∀ (runs : List ActivityRecord) (v : ℚ),
      (analyzeRuns (runs.map fun a => { a with average_speed := v })).verdict =
        (analyzeRuns runs).verdict) ∧
    (∀ r1 r2 : ActivityRecord,
      specificImprovements r1 r2 =
        (if (specificPaceAnalysis (pace_min_km r1) (pace_min_km r2)).map
              Prod.snd = some Classification.improvement then 1 else 0) +
        (if (specificDistAnalysis (distance_km r1) (distance_km r2)).2 =
              Classification.improvement then 1 else 0) +
        (if (specificHrAnalysis r1.average_heartrate
              r2.average_heartrate).map Prod.snd =
              some Classification.improvement then 1 else 0)) ∧
    (∀ (r1 r2 : ActivityRecord) (v w : ℚ),
      specificImprovements { r1 with average_speed := v }
          { r2 with average_speed := w } = specificImprovements r1 r2) ∧
    (∀ n : Nat, 2 ≤ n → overallVerdict n = Verdict.excellent) ∧
    overallVerdict 1 = Verdict.good ∧
    overallVerdict 0 = Verdict.stayConsistent := by
  refine ⟨?_, fun runs => rfl, ?_, ?_, fun r1 r2 v w => rfl, ?_, rfl, rfl⟩
  · intro paces distances heartRates
    simp only [improvementsCount, classifyPace_eq_improvement,
      classifyDist_eq_improvement, classifyHeartRate_eq_improvement]
  · intro runs v
    rw [analyzeRuns_map_speed]
  · intro r1 r2
    rw [specificImprovements]
    simp only [specificPace_improvement_iff, specificDist_improvement_iff,
      specificHr_improvement_iff, specificDistChange]
  · intro n h
    rw [overallVerdict, if_pos h]

/-- Witness for `verdict_counts_improvements`: two counted improvements give
the excellent verdict. -/
theorem verdict_counts_improvements_witness :
    overallVerdict 2 = Verdict.excellent :=
  verdict_counts_improvements.2.2.2.2.2.1 2 (by decide)

/-! ## C6: zero-distance activities contribute no pace or speed to any mean -/

/-- C6: an activity with distance 0 has pace value 0, every value aggregated
into the pace list is strictly positive (so the 0 pace of such an activity
is excluded from the windowed and overall pace means and never contributes a
0), and all the aggregate results of both the comparison and the
recommendation pipelines are unchanged under rewriting every average_speed
field, since the collected speeds feed no mean. -/
theorem zero_distance_excluded :
    (∀ r : ActivityRecord, r.distance = 0 → pace_min_km r = 0) ∧
    (∀ runs : List ActivityRecord, ∀ x ∈ collectPaces runs, 0 < x) ∧
    (∀ runs : List ActivityRecord, (0 : ℚ) ∉ collectPaces runs) ∧
    (∀ (runs : List ActivityRecord) (v : ℚ),
      analyzeRuns (runs.map fun a => { a with average_speed := v }) =
        analyzeRuns runs) ∧
    (∀ (runs : List ActivityRecord) (v : ℚ),
      trainingAnalysis (runs.map fun a => { a with average_speed := v }) =
        trainingAnalysis runs) := by
  have hpos : ∀ runs : List ActivityRecord, ∀ x ∈ collectPaces runs, 0 < x := by
    intro runs x hx
    simp only [collectPaces, List.mem_filter, decide_eq_true_eq] at hx
    exact hx.2
  refine ⟨?_, hpos, ?_, analyzeRuns_map_speed, trainingAnalysis_map_speed⟩
  · intro r h
    rw [pace_min_km, if_neg]
    rw [distance_km, h]
    norm_num
  · intro runs h
    exact absurd (hpos runs 0 h) (by norm_num)

/-- Witness for `zero_distance_excluded`: a 0-distance activity with a
10-minute moving time has pace 0, which is not collected. -/
theorem zero_distance_excluded_witness :
    pace_min_km (mkRun 0 600 "2026-01-01") = 0 ∧
    (0 : ℚ) ∉ collectPaces [mkRun 0 600 "2026-01-01"] :=
  ⟨zero_distance_excluded.1 (mkRun 0 600 "2026-01-01") rfl,
   zero_distance_excluded.2.2.1 [mkRun 0 600 "2026-01-01"]⟩

/-! ## C4: zero-reference guards -/

theorem olderAvg_pos (l : List ℚ) (hpos : ∀ x ∈ l, 0 < x) (hne : l ≠ []) :
    0 < olderAvg l := by
  have hlen : 0 < l.length := List.length_pos.mpr hne
  have hlen' : 0 < (takeLast 3 l).length := by
    simp only [takeLast, List.length_drop]
    omega
  have hne' : takeLast 3 l ≠ [] := by
    intro h
    rw [h] at hlen'
    simp at hlen'
  have hsum : 0 < (takeLast 3 l).sum := by
    refine List.sum_pos _ ?_ hne'
    intro x hx
    exact hpos x (List.mem_of_mem_drop hx)
  have hden : (0 : ℚ) < ((min 3 (takeLast 3 l).length : Nat) : ℚ) := by
    have : 0 < min 3 (takeLast 3 l).length := by omega
    exact_mod_cast this
  exact div_pos hsum hden

/-- C4 counterexample: in `CompareSpecificRunsTool._run`, a session pair
whose reference session has distance 0 (e.g. a 30-minute manual entry
against a 5 km run) yields the numeric placeholder 0 for dist_change, and
the distance comparison is still emitted with the stable classification, so
the metric comparison is neither reported as undefined nor omitted. -/
theorem specific_zero_reference_counterexample :
    distance_km (mkRun 0 1800 "2026-01-10") = 0 ∧
    specificDistChange (distance_km (mkRun 0 1800 "2026-01-10"))
        (distance_km (mkRun 5000 1500 "2026-01-11")) = 0 ∧
    specificDistAnalysis (distance_km (mkRun 0 1800 "2026-01-10"))
        (distance_km (mkRun 5000 1500 "2026-01-11")) =
      (0, Classification.stable) := by
  have h0 : distance_km (mkRun 0 1800 "2026-01-10") = 0 := by
    norm_num [distance_km, mkRun]
  have h1 : specificDistChange (distance_km (mkRun 0 1800 "2026-01-10"))
      (distance_km (mkRun 5000 1500 "2026-01-11")) = 0 := by
    rw [h0, specificDistChange, if_neg (by norm_num)]
  refine ⟨h0, h1, ?_⟩
  rw [specificDistAnalysis, h1]
  norm_num [classifyDist]

/-- C4 amended: in the windowed comparator every aggregated value is
strictly positive, so whenever a metric comparison is performed (at least 2
defined values) its older mean is strictly positive and the division is
never by zero; in the specific-runs comparator the pace and heart-rate
comparisons are omitted when the reference value is 0, while the distance,
time and speed changes fall back to the numeric value 0 instead of being
omitted (no division is performed there either). -/
theorem division_by_zero_guards :
    (∀ runs : List ActivityRecord, collectPaces runs ≠ [] →
      0 < olderAvg (collectPaces runs)) ∧
    (∀ runs : List ActivityRecord, collectDistances runs ≠ [] →
      0 < olderAvg (collectDistances runs)) ∧
    (∀ runs : List ActivityRecord, collectHeartRates runs ≠ [] →
      0 < olderAvg (collectHeartRates runs)) ∧
    (∀ p2 : ℚ, specificPaceAnalysis 0 p2 = none) ∧
    (∀ h2 : ℚ, specificHrAnalysis 0 h2 = none) ∧
    (∀ d2 : ℚ, specificDistChange 0 d2 = 0) ∧
    (∀ t2 : ℚ, specificTimeChange 0 t2 = 0) ∧
    (∀ s2 : ℚ, specificSpeedChange 0 s2 = 0) := by
  have hfilter : ∀ (l : List ℚ) (x : ℚ),
      x ∈ l.filter (fun p => p > 0) → 0 < x := by
    intro l x hx
    simp only [List.mem_filter, decide_eq_true_eq] at hx
    exact hx.2
  refine ⟨?_, ?_, ?_, ?_, ?_, ?_, ?_, ?_⟩
  · intro runs hne
    exact olderAvg_pos _ (fun x hx => hfilter _ x hx) hne
  · intro runs hne
    exact olderAvg_pos _ (fun x hx => hfilter _ x hx) hne
  · intro runs hne
    exact olderAvg_pos _ (fun x hx => hfilter _ x hx) hne
  · intro p2
    rw [specificPaceAnalysis, if_neg]
    rintro ⟨h, -⟩
    exact absurd h (by norm_num)
  · intro h2
    rw [specificHrAnalysis, if_neg]
    rintro ⟨h, -⟩
    exact absurd h (by norm_num)
  · intro d2
    rw [specificDistChange, if_neg (by norm_num)]
  · intro t2
    rw [specificTimeChange, if_neg (by norm_num)]
  · intro s2
    rw [specificSpeedChange, if_neg (by norm_num)]

/-- Witness for `division_by_zero_guards`: for the two-session run list the
older pace mean is strictly positive, and a zero-reference pace comparison
is omitted. -/
theorem division_by_zero_guards_witness :
    (0 : ℚ) < olderAvg (collectPaces [sessionA, sessionB]) ∧
    specificPaceAnalysis 0 5 = none := by
  constructor
  · refine division_by_zero_guards.1 [sessionA, sessionB] ?_
    intro h
    have := congrArg List.length h
    norm_num [collectPaces, sessionA, sessionB, mkRun, pace_min_km,
      distance_km, time_min] at this
  · exact division_by_zero_guards.2.2.2.1 5

/-! ## C1: the two-session scenario -/

theorem collectPaces_pair : collectPaces [sessionA, sessionB] = [5, 29 / 6] := by
  have hA : pace_min_km sessionA = 5 := by
    norm_num [pace_min_km, distance_km, time_min, sessionA, mkRun]
  have hB : pace_min_km sessionB = 29 / 6 := by
    norm_num [pace_min_km, distance_km, time_min, sessionB, mkRun]
  simp only [collectPaces, List.map_cons, List.map_nil, hA, hB]
  norm_num

theorem pair_window_zero (l : List ℚ) (hl : l.length = 2) :
    recentAvg l = olderAvg l ∧ paceImprovement l = 0 ∧
    classifyPace (paceImprovement l) = Classification.stable := by
  rcases l with _ | ⟨a, _ | ⟨b, _ | ⟨c, t⟩⟩⟩
  · simp at hl
  · simp at hl
  · have heq : recentAvg [a, b] = olderAvg [a, b] := by
      simp [recentAvg, olderAvg, takeLast]
    have h0 : paceImprovement [a, b] = 0 := by
      rw [paceImprovement, heq, sub_self, zero_div, zero_mul]
    exact ⟨heq, h0, by rw [h0]; norm_num [classifyPace]⟩
  · simp at hl

theorem analyzeRuns_pair_paceCmp :
    (analyzeRuns [sessionA, sessionB]).paceCmp =
      some (0, Classification.stable) := by
  have hlen : (collectPaces [sessionA, sessionB]).length = 2 := by
    rw [collectPaces_pair]
    rfl
  obtain ⟨-, h0, hstable⟩ :=
    pair_window_zero (collectPaces [sessionA, sessionB]) hlen
  show (if 2 ≤ (collectPaces [sessionA, sessionB]).length then _ else _) = _
  rw [if_pos (by omega), h0]
  norm_num [classifyPace]

/-- C1 counterexample: on the two-session list (most recent first, 10 km at
5:00 min/km then 10 km at 4:50 min/km) the comparator windows both cover the
whole pair, so the reported pace change is 0 and the classification is
stable, not an improvement of about -3.3 percent. -/
theorem two_session_pace_counterexample :
    (analyzeRuns [sessionA, sessionB]).paceCmp =
      some (0, Classification.stable) ∧
    Classification.stable ≠ Classification.improvement ∧
    (0 : ℚ) ≠ -(10 / 3) :=
  ⟨analyzeRuns_pair_paceCmp, by decide, by norm_num⟩

/-- C1 amended: given the filtered list of exactly 2 running sessions with
distances 10 km and 10 km and paces 5:00 and 4:50 min/km, the comparison
runs (the tool returns the analysis, not the insufficient-data message) but
both windows average the same two sessions, so it reports a pace change of 0
percent classified stable; in general any 2-element metric list yields
coinciding windows, change 0 and the stable label. -/
theorem two_session_pace_stable :
    compareRunningSessions [sessionA, sessionB] 2 =
      ToolResult.ok (analyzeRuns [sessionA, sessionB]) ∧
    (analyzeRuns [sessionA, sessionB]).paceCmp =
      some (0, Classification.stable) ∧
    (∀ l : List ℚ, l.length = 2 →
      recentAvg l = olderAvg l ∧ paceImprovement l = 0 ∧
      classifyPace (paceImprovement l) = Classification.stable) := by
  refine ⟨?_, analyzeRuns_pair_paceCmp, pair_window_zero⟩
  have hfilter : filterRuns [sessionA, sessionB] 2 = [sessionA, sessionB] := by
    rfl
  simp only [compareRunningSessions, hfilter]
  rw [if_neg (by norm_num)]

/-- Witness for `two_session_pace_stable` on the concrete pace list of the
scenario. -/
theorem two_session_pace_stable_witness :
    recentAvg [(5 : ℚ), 29 / 6] = olderAvg [(5 : ℚ), 29 / 6] ∧
    paceImprovement [(5 : ℚ), 29 / 6] = 0 ∧
    classifyPace (paceImprovement [(5 : ℚ), 29 / 6]) =
      Classification.stable :=
  two_session_pace_stable.2.2 [5, 29 / 6] rfl

/-! ## C2: windowed aggregation -/

/-- C2: for every metric list the recent window average is the arithmetic
mean of the first min(3, N) values and the older window average is the
arithmetic mean of the last min(3, N) values, both windows taken
independently from the two ends of the same list; when 0 < N < 6 the two
windows share an element. -/
theorem window_aggregator_means :
    (∀ l : List ℚ,
      recentAvg l = mean (l.take 3) ∧
      olderAvg l = mean (takeLast 3 l) ∧
      (l.take 3).length = min 3 l.length ∧
      (takeLast 3 l).length = min 3 l.length) ∧
    (∀ l : List ℚ, 0 < l.length → l.length < 6 →
      ∃ x, x ∈ l.take 3 ∧ x ∈ takeLast 3 l) := by
  constructor
  · intro l
    have hlen : (takeLast 3 l).length = min 3 l.length := by
      simp only [takeLast, List.length_drop]
      omega
    refine ⟨?_, ?_, List.length_take 3 l, hlen⟩
    · rw [recentAvg, mean, List.length_take]
    · have h2 : min 3 (takeLast 3 l).length = (takeLast 3 l).length := by
        simp only [takeLast, List.length_drop]
        omega
      rw [olderAvg, mean, h2]
  · intro l h0 h6
    have hj : min 3 l.length - 1 < l.length := by omega
    refine ⟨l.get ⟨min 3 l.length - 1, hj⟩, ?_, ?_⟩
    · have hj3 : min 3 l.length - 1 < (l.take 3).length := by
        simp only [List.length_take]
        omega
      have : (l.take 3).get ⟨min 3 l.length - 1, hj3⟩ =
          l.get ⟨min 3 l.length - 1, hj⟩ := by
        simp [List.getElem_take]
      rw [← this]
      exact List.get_mem _ _ _
    · have hk : min 3 l.length - 1 - (l.length - 3) <
          (l.drop (l.length - 3)).length := by
        simp only [List.length_drop]
        omega
      have harith : l.length - 3 + (min 3 l.length - 1 - (l.length - 3)) =
          min 3 l.length - 1 := by omega
      have : (l.drop (l.length - 3)).get
            ⟨min 3 l.length - 1 - (l.length - 3), hk⟩ =
          l.get ⟨min 3 l.length - 1, hj⟩ := by
        simp only [List.get_eq_getElem, List.getElem_drop, harith]
      rw [takeLast, ← this]
      exact List.get_mem _ _ _

/-- Witness for `window_aggregator_means` on a 3-element list, where the two
windows coincide and therefore share an element. -/
theorem window_aggregator_means_witness :
    ∃ x, x ∈ ([1, 2, 3] : List ℚ).take 3 ∧
      x ∈ takeLast 3 ([1, 2, 3] : List ℚ) :=
  window_aggregator_means.2 [1, 2, 3] (by decide) (by decide)

/-! ## C10: monthly frequency lemmas -/

theorem bump_snd_sum (acc : List (String × Nat)) (k : String) :
    ((bump acc k).map Prod.snd).sum = ((acc.map Prod.snd).sum) + 1 := by
  induction acc with
  | nil => simp [bump]
  | cons hd tl ih =>
      obtain ⟨q, n⟩ := hd
      by_cases h : q = k
      · simp only [bump, if_pos h, List.map_cons, List.sum_cons]
        omega
      · simp only [bump, if_neg h, List.map_cons, List.sum_cons, ih]
        omega

theorem bump_fst (acc : List (String × Nat)) (k : String) :
    (bump acc k).map Prod.fst =
      if k ∈ acc.map Prod.fst then acc.map Prod.fst
      else acc.map Prod.fst ++ [k] := by
  induction acc with
  | nil => simp [bump]
  | cons hd tl ih =>
      obtain ⟨q, n⟩ := hd
      by_cases h : q = k
      · simp [bump, h]
      · by_cases hk : k ∈ tl.map Prod.fst
        · simp [bump, h, ih, hk, Ne.symm h]
        · simp [bump, h, ih, hk, Ne.symm h]

theorem bump_fst_nodup (acc : List (String × Nat)) (k : String)
    (h : (acc.map Prod.fst).Nodup) : ((bump acc k).map Prod.fst).Nodup := by
  rw [bump_fst]
  split_ifs with hk
  · exact h
  · simp [List.nodup_append, h, hk]

theorem bump_fst_toFinset (acc : List (String × Nat)) (k : String) :
    ((bump acc k).map Prod.fst).toFinset =
      insert k (acc.map Prod.fst).toFinset := by
  rw [bump_fst]
  split_ifs with hk
  · exact (Finset.insert_eq_self.mpr (List.mem_toFinset.mpr hk)).symm
  · ext a
    simp [or_comm]

theorem weekly_foldl_spec (runs : List ActivityRecord) :
    ∀ acc : List (String × Nat),
      (((runs.foldl (fun acc r => bump acc (monthKey r)) acc).map
          Prod.snd).sum = (acc.map Prod.snd).sum + runs.length) ∧
      (((runs.foldl (fun acc r => bump acc (monthKey r)) acc).map
          Prod.fst).toFinset =
        (acc.map Prod.fst).toFinset ∪ (runs.map monthKey).toFinset) ∧
      ((acc.map Prod.fst).Nodup →
        ((runs.foldl (fun acc r => bump acc (monthKey r)) acc).map
          Prod.fst).Nodup) := by
  induction runs with
  | nil => intro acc; simp
  | cons r rs ih =>
      intro acc
      obtain ⟨s1, s2, s3⟩ := ih (bump acc (monthKey r))
      refine ⟨?_, ?_, ?_⟩
      · rw [List.foldl_cons, s1, bump_snd_sum, List.length_cons]
        omega
      · rw [List.foldl_cons, s2, bump_fst_toFinset, List.map_cons,
          List.toFinset_cons, Finset.insert_union, Finset.union_insert]
      · intro h
        exact s3 (bump_fst_nodup acc (monthKey r) h)

theorem weeklyFrequency_sum (runs : List ActivityRecord) :
    ((weeklyFrequency runs).map Prod.snd).sum = runs.length := by
  have := (weekly_foldl_spec runs []).1
  simpa [weeklyFrequency] using this

theorem weeklyFrequency_length (runs : List ActivityRecord) :
    (weeklyFrequency runs).length = (runs.map monthKey).toFinset.card := by
  obtain ⟨-, s2, s3⟩ := weekly_foldl_spec runs []
  have hnodup : ((weeklyFrequency runs).map Prod.fst).Nodup := by
    apply s3
    simp
  have hfin : ((weeklyFrequency runs).map Prod.fst).toFinset =
      (runs.map monthKey).toFinset := by
    simpa [weeklyFrequency] using s2
  calc (weeklyFrequency runs).length
      = ((weeklyFrequency runs).map Prod.fst).length :=
        (List.length_map _ _).symm
    _ = ((weeklyFrequency runs).map Prod.fst).toFinset.card :=
        (List.toFinset_card_of_nodup hnodup).symm
    _ = (runs.map monthKey).toFinset.card := by rw [hfin]

/-- C10: the frequency fed to the level bucket groups runs on the first 7
characters of start_date_local (the YYYY-MM month) and equals the number of
analyzed runs divided by the number of distinct months containing at least
one run, i.e. the mean number of runs per such calendar month. -/
theorem monthly_frequency_mean :
    (∀ r : ActivityRecord, monthKey r = strTake 7 r.start_date_local) ∧
    (∀ runs : List ActivityRecord, runs ≠ [] →
      avgWeeklyRuns runs =
        (runs.length : ℚ) / ((runs.map monthKey).toFinset.card : ℚ)) := by
  constructor
  · intro r
    simp [monthKey, strTake, List.take_take]
  · intro runs hne
    have hcard : 0 < (runs.map monthKey).toFinset.card := by
      rcases runs with _ | ⟨r, rs⟩
      · exact absurd rfl hne
      · exact Finset.card_pos.mpr ⟨monthKey r, by simp⟩
    have hlen : 0 < (weeklyFrequency runs).length := by
      rw [weeklyFrequency_length]
      exact hcard
    have hwf : ¬(weeklyFrequency runs).isEmpty := by
      rw [List.isEmpty_iff_length_eq_zero]
      omega
    rw [avgWeeklyRuns]
    simp only [hwf, if_false, Bool.false_eq_true]
    rw [weeklyFrequency_sum, weeklyFrequency_length]

/-- Witness for `monthly_frequency_mean`: a single run in a single month
gives frequency 1/1. -/
theorem monthly_frequency_mean_witness :
    avgWeeklyRuns [sessionA] =
      (([sessionA].length : ℚ)) /
        ((([sessionA].map monthKey).toFinset.card : ℚ)) :=
  monthly_frequency_mean.2 [sessionA] (by simp)

/-! ## C9: map image line lemmas -/

theorem isImageLine_append_false (p s : String) (h2 : 2 ≤ p.data.length)
    (h : p.data.take 2 ≠ ['!', '[']) : isImageLine (p ++ s) = false := by
  simp [isImageLine, String.data_append, List.take_append_of_le_length h2, h]

theorem isImageLine_append_true (p s : String)
    (h : p.data.take 2 = ['!', '[']) : isImageLine (p ++ s) = true := by
  have h2 : 2 ≤ p.data.length := by
    have hlen := congrArg List.length h
    simp only [List.length_take, List.length_cons, List.length_nil] at hlen
    omega
  simp [isImageLine, String.data_append, List.take_append_of_le_length h2, h]

theorem countP_speedLines (a : ActivityRecord) :
    (speedLines a).countP isImageLine = 0 := by
  have hspeed : ∀ s, isImageLine ("- **Average Speed:** " ++ s) = false :=
    fun s => isImageLine_append_false _ s (by decide) (by decide)
  have hpace : ∀ s, isImageLine ("- **Average Pace:** " ++ s) = false :=
    fun s => isImageLine_append_false _ s (by decide) (by decide)
  rw [speedLines]
  split_ifs <;>
    simp [optLine, List.countP_cons, List.countP_append, String.append_assoc,
      hspeed, hpace, apply_ite (List.countP isImageLine)]

theorem countP_metricLines (a : ActivityRecord) :
    (metricLines a).countP isImageLine = 0 := by
  have hMain : isImageLine "### 📊 Main Metrics" = false := by decide
  have hType : ∀ s, isImageLine ("- **Type:** " ++ s) = false :=
    fun s => isImageLine_append_false _ s (by decide) (by decide)
  have hDist : ∀ s, isImageLine ("- **Distance:** " ++ s) = false :=
    fun s => isImageLine_append_false _ s (by decide) (by decide)
  have hTime : ∀ s, isImageLine ("- **Time:** " ++ s) = false :=
    fun s => isImageLine_append_false _ s (by decide) (by decide)
  have hElev : ∀ s, isImageLine ("- **Elevation Gain:** " ++ s) = false :=
    fun s => isImageLine_append_false _ s (by decide) (by decide)
  have hHr : ∀ s, isImageLine ("- **Average HR:** " ++ s) = false :=
    fun s => isImageLine_append_false _ s (by decide) (by decide)
  have hMaxHr : ∀ s, isImageLine ("- **Max HR:** " ++ s) = false :=
    fun s => isImageLine_append_false _ s (by decide) (by decide)
  have hPow : ∀ s, isImageLine ("- **Average Power:** " ++ s) = false :=
    fun s => isImageLine_append_false _ s (by decide) (by decide)
  have hNorm : ∀ s, isImageLine ("- **Normalized Power:** " ++ s) = false :=
    fun s => isImageLine_append_false _ s (by decide) (by decide)
  have hCad : ∀ s, isImageLine ("- **Average Cadence:** " ++ s) = false :=
    fun s => isImageLine_append_false _ s (by decide) (by decide)
  have hCal : ∀ s, isImageLine ("- **Calories:** " ++ s) = false :=
    fun s => isImageLine_append_false _ s (by decide) (by decide)
  rw [metricLines]
  simp [optLine, List.countP_cons, List.countP_append, countP_speedLines,
    String.append_assoc, hMain, hType, hDist, hTime, hElev, hHr, hMaxHr,
    hPow, hNorm, hCad, hCal, apply_ite (List.countP isImageLine)]

/-- C9: formatting an activity with a non-empty polyline while the Google
static-map key is configured produces exactly one Markdown image line, whose
URL is the static-map URL containing the encoded path parameter (path=enc:
followed by the polyline); with no key configured the output contains no
image line and the formatter still totally produces the remaining lines,
raising no error. -/
theorem map_image_line :
    ∀ (a : ActivityRecord) (gk mt : String),
      (a.map_polyline ≠ "" → gk ≠ "" →
        ∃ url, generateMapUrl gk mt a.map_polyline "600x400" = some url ∧
          (∃ pre post : List Char,
            url.data = pre ++ ("path=enc:" ++ a.map_polyline).data ++ post) ∧
          ("![Route Map](" ++ url ++ ")") ∈ formatActivityWithMap a gk mt ∧
          (formatActivityWithMap a gk mt).countP isImageLine = 1) ∧
      (gk = "" →
        (formatActivityWithMap a gk mt).countP isImageLine = 0 ∧
        ("## 🏃 " ++ a.name) ∈ formatActivityWithMap a gk mt) := by
  intro a gk mt
  have hHeader : ∀ s, isImageLine ("## 🏃 " ++ s) = false :=
    fun s => isImageLine_append_false _ s (by decide) (by decide)
  have hEmpty : isImageLine "" = false := by decide
  constructor
  · intro hpoly hgk
    have hurl : generateMapUrl gk mt a.map_polyline "600x400" =
        some ("https://maps.googleapis.com/maps/api/staticmap?size=" ++
          "600x400" ++ "&path=enc:" ++ a.map_polyline ++ "&key=" ++ gk) := by
      rw [generateMapUrl, if_neg hpoly, if_pos hgk]
    have hmap : mapLines a gk mt =
        ["![Route Map](" ++
          ("https://maps.googleapis.com/maps/api/staticmap?size=" ++
            "600x400" ++ "&path=enc:" ++ a.map_polyline ++ "&key=" ++ gk) ++
          ")", ""] := by
      rw [mapLines, if_pos hpoly, hurl]
    have hImg : ∀ s, isImageLine ("![Route Map](" ++ s) = true :=
      fun s => isImageLine_append_true _ s (by decide)
    refine ⟨_, hurl, ?_, ?_, ?_⟩
    · refine ⟨("https://maps.googleapis.com/maps/api/staticmap?size=" ++
        "600x400" ++ "&").data, ("&key=" ++ gk).data, ?_⟩
      have hsplit : ("&path=enc:" : String).data =
          ("&" : String).data ++ ("path=enc:" : String).data := by decide
      simp only [String.data_append, hsplit, List.append_assoc]
      simp
    · rw [formatActivityWithMap, hmap]
      simp
    · rw [formatActivityWithMap, hmap]
      simp [List.countP_cons, List.countP_append, countP_metricLines,
        String.append_assoc, hHeader, hImg, hEmpty]
  · intro hgk
    have hmap : mapLines a gk mt = [] := by
      rw [mapLines]
      split_ifs with hp
      · rw [generateMapUrl, if_neg hp, if_neg (by simp [hgk])]
      · rfl
    constructor
    · rw [formatActivityWithMap, hmap]
      simp [List.countP_cons, List.countP_append, countP_metricLines,
        String.append_assoc, hHeader, hEmpty]
    · rw [formatActivityWithMap]
      simp

/-- Witness for `map_image_line`: a concrete activity whose polyline is
non-empty together with a configured key yields the image line and exactly
one image line in the output; the same activity with the empty key yields
none. -/
theorem map_image_line_witness :
    (∃ url, generateMapUrl "KEY" "" polylineSample.map_polyline "600x400" =
        some url ∧
      (∃ pre post : List Char,
        url.data =
          pre ++ ("path=enc:" ++ polylineSample.map_polyline).data ++ post) ∧
      ("![Route Map](" ++ url ++ ")") ∈
        formatActivityWithMap polylineSample "KEY" "" ∧
      (formatActivityWithMap polylineSample "KEY" "").countP isImageLine =
        1) ∧
    (formatActivityWithMap polylineSample "" "").countP isImageLine = 0 :=
  ⟨(map_image_line polylineSample "KEY" "").1 (by decide) (by decide),
   ((map_image_line polylineSample "" "").2 rfl).1⟩

end StravaAgent
